import Mathlib

/-!
Verification development for the image-to-song pipeline in `src/app.py`.

The program is a linear pipeline over three remote services: an image
loader (`_encode_image_to_base64`), a captioning call
(`_get_image_description`), an embedding call (`_generate_embedding`)
and a vector-index query (`_query_pinecone`), composed by
`process_image`.  Remote services are modelled as oracle functions
gathered in a `Services` record; every stage returns, besides its
`Except` result, the list of remote calls it performed, so that
ordering and "stage never invoked" properties can be stated.  Python
exceptions are modelled as `Except.error` carrying the exception
message; the `raise Exception(f"...: {str(e)}")` wrappers become
string-prefix concatenation, exactly as in the source.
-/

/-- Decidable equality for `Except`, needed to evaluate concrete runs. -/
def exceptDecEq {ε : Type} {α : Type} [DecidableEq ε] [DecidableEq α] :
    (a b : Except ε α) → Decidable (a = b)
  | Except.error e, Except.error f =>
      if h : e = f then isTrue (by rw [h]) else isFalse (fun hh => h (Except.error.inj hh))
  | Except.error _, Except.ok _ => isFalse (fun hh => Except.noConfusion hh)
  | Except.ok _, Except.error _ => isFalse (fun hh => Except.noConfusion hh)
  | Except.ok a, Except.ok b =>
      if h : a = b then isTrue (by rw [h]) else isFalse (fun hh => h (Except.ok.inj hh))

instance {ε : Type} {α : Type} [DecidableEq ε] [DecidableEq α] : DecidableEq (Except ε α) :=
  exceptDecEq

/-- The base64 alphabet, as used by Python's `base64.b64encode`. -/
def b64table : List Char := "ABCDEFGHIJKLMNOPQRSTUVWXYZabcdefghijklmnopqrstuvwxyz0123456789+/".toList

/-- Character of the base64 alphabet at a given index. -/
def b64char (n : Nat) : Char := b64table.getD n 'A'

/-- Standard base64 encoding of a byte list (model of `base64.b64encode`
followed by `.decode('utf-8')`, which is ASCII on this alphabet). -/
def b64encode : List Nat → List Char
  | [] => []
  | [a] => [b64char (a / 4 % 64), b64char (a % 4 * 16), '=', '=']
  | [a, b] => [b64char (a / 4 % 64), b64char (a % 4 * 16 + b / 16 % 16), b64char (b % 16 * 4), '=']
  | a :: b :: c :: rest =>
      b64char (a / 4 % 64) :: b64char (a % 4 * 16 + b / 16 % 16) ::
      b64char (b % 16 * 4 + c / 64 % 4) :: b64char (c % 64) :: b64encode rest

/-- Model of Python `str.startswith`: does `p` occur at the start of `s`? -/
def list_beginsWith : List Char → List Char → Bool
  | [], _ => true
  | _ :: _, [] => false
  | p :: ps, c :: cs => (p == c) && list_beginsWith ps cs

/-- `str_beginsWith s p` models `s.startswith(p)` in Python. -/
def str_beginsWith (s p : String) : Bool := list_beginsWith p.data s.data

/-- A Python value as seen by `_encode_image_to_base64`'s duck typing:
it may or may not be a `str` (with its string value), and may or may
not expose a `read` attribute (with the bytes that `read()` yields, or
the exception it raises).  The app passes either a URL/path string or a
Streamlit upload (a file-like object). -/
structure PyValue where
  isStr : Bool
  strVal : String
  hasRead : Bool
  readData : Except String (List Nat)
deriving DecidableEq, Repr

/-- An HTTP response as `requests` returns it: status code plus body.
`requests.get` does not raise on a non-success status. -/
structure HttpResponse where
  status : Nat
  content : List Nat
deriving DecidableEq, Repr

/-- The JSON body returned by the embedding endpoint: the `embedding`
field is present (`some v`) or missing (`none`, a `KeyError` on access). -/
structure EmbedJson where
  embedding : Option (List Rat)
deriving DecidableEq, Repr

/-- One scored match from the vector index. -/
structure MatchRecord where
  score : Rat
  song : String
  artist : String
  link : String
deriving DecidableEq, Repr

/-- The index's query response: the object whose `matches` field
`_query_pinecone` extracts (`matches` is a Lean keyword, hence the
field name `matchList`). -/
structure QueryResponse where
  matchList : List MatchRecord
deriving DecidableEq, Repr

/-- One remote call performed during a pipeline run, with its payload. -/
inductive RemoteCall where
  | imageGet (url : String)
  | caption (instruction : String) (payload : String) (maxTokens : Nat)
  | embed (text : String)
  | query (index : String) (vector : List Rat) (topK : Nat)
deriving DecidableEq, Repr

/-- The external world: oracles for the four remote interactions plus
local file reading.  `Except.error` models the Python exception the
call would raise (network failure, `OSError` from `open`, ...). -/
structure Services where
  httpGet : String → Except String HttpResponse
  openFile : PyValue → Except String (List Nat)
  chatCompletion : String → String → Nat → Except String String
  embedPost : String → Except String EmbedJson
  indexQuery : String → List Rat → Nat → Except String QueryResponse

/-- The application's only held state: the Pinecone index handle,
`self.index = pinecone.Index('songs')`. -/
structure AppState where
  index : String
deriving DecidableEq, Repr

/-- State created by `ImageSearchApp.__init__`. -/
def app_init : AppState := { index := "songs" }

/-- The fixed instruction text of the captioning request. -/
def promptText : String := "Describe this image in detail, focusing on the main elements, mood, and any notable features. The description should be a paragraph and not bullet points. Also, the idea is that, whatever description you generate will be used to find a matching song, so make the description not too technical and efficient for the use case. DO NOT USE QUOTATION MARKS OR APOSTROPHE IN THE OUTPUT!"

/-- The apostrophe character. -/
def apostrophe : Char := Char.ofNat 39

/-- The double-quotation-mark character. -/
def quotationMark : Char := Char.ofNat 34

/-- Message of Python's `KeyError('embedding')`: the key in quotes. -/
def keyErrorEmbedding : String := String.mk (apostrophe :: "embedding".data ++ [apostrophe])

/-- Default of `_query_pinecone`'s `top_k` parameter; `process_image`
calls `_query_pinecone(embedding)` and therefore uses it. -/
def top_k_default : Nat := 5

/-- The guard on line 25 of `app.py`:
`isinstance(image_path, str) and image_path.startswith(('http://', 'https://'))`. -/
def looks_http (v : PyValue) : Bool :=
  v.isStr && (str_beginsWith v.strVal "http://" || str_beginsWith v.strVal "https://")

/-- Model of `_encode_image_to_base64` (lines 24-37): classify the
source by shape, acquire its bytes, and return them base64-encoded.
Besides the result it returns the list of remote calls performed. -/
def encode_image_to_base64 (sv : Services) (image_path : PyValue) :
    List RemoteCall × Except String String :=
  if looks_http image_path then
    match sv.httpGet image_path.strVal with
    | Except.error e => ([RemoteCall.imageGet image_path.strVal], Except.error e)
    | Except.ok response =>
        ([RemoteCall.imageGet image_path.strVal],
         Except.ok (String.mk (b64encode response.content)))
  else if image_path.hasRead then
    match image_path.readData with
    | Except.error e => ([], Except.error e)
    | Except.ok image_data => ([], Except.ok (String.mk (b64encode image_data)))
  else
    match sv.openFile image_path with
    | Except.error e => ([], Except.error e)
    | Except.ok image_data => ([], Except.ok (String.mk (b64encode image_data)))

/-- Model of `_get_image_description` (lines 39-66): encode the image,
send the captioning request, and wrap any exception with the prefix
`Error getting image description: `. -/
def get_image_description (sv : Services) (image_source : PyValue) :
    List RemoteCall × Except String String :=
  let enc := encode_image_to_base64 sv image_source
  match enc.2 with
  | Except.error e => (enc.1, Except.error ("Error getting image description: " ++ e))
  | Except.ok base64_image =>
      match sv.chatCompletion promptText base64_image 300 with
      | Except.error e =>
          (enc.1 ++ [RemoteCall.caption promptText base64_image 300],
           Except.error ("Error getting image description: " ++ e))
      | Except.ok content =>
          (enc.1 ++ [RemoteCall.caption promptText base64_image 300], Except.ok content)

/-- Model of `_generate_embedding` (lines 68-86): POST the text to the
embedding endpoint; a transport failure or a response without the
`embedding` field raises, wrapped with `Error generating embedding: `. -/
def generate_embedding (sv : Services) (text : String) :
    List RemoteCall × Except String (List Rat) :=
  match sv.embedPost text with
  | Except.error e => ([RemoteCall.embed text], Except.error ("Error generating embedding: " ++ e))
  | Except.ok response =>
      match response.embedding with
      | none =>
          ([RemoteCall.embed text],
           Except.error ("Error generating embedding: " ++ keyErrorEmbedding))
      | some v => ([RemoteCall.embed text], Except.ok v)

/-- Model of `_query_pinecone` (lines 88-97): query the held index and
return the response's `matches` field unchanged; failures are wrapped
with `Error querying Pinecone: `.  The returned `AppState` is the state
after the call (the method assigns nothing to `self`). -/
def query_pinecone (sv : Services) (app : AppState) (embedding : List Rat) (top_k : Nat) :
    AppState × List RemoteCall × Except String (List MatchRecord) :=
  match sv.indexQuery app.index embedding top_k with
  | Except.error e =>
      (app, [RemoteCall.query app.index embedding top_k],
       Except.error ("Error querying Pinecone: " ++ e))
  | Except.ok results =>
      (app, [RemoteCall.query app.index embedding top_k], Except.ok results.matchList)

/-- The structure returned by a successful `process_image` call. -/
structure PipelineResult where
  description : String
  matchList : List MatchRecord
deriving DecidableEq, Repr

/-- Model of `process_image` (lines 99-116): description, then
embedding, then index query; any exception is re-raised wrapped with
`Error processing image: `.  Returns the state after the call, the
remote calls performed in order, and the result. -/
def process_image (sv : Services) (app : AppState) (image_source : PyValue) :
    AppState × List RemoteCall × Except String PipelineResult :=
  let d := get_image_description sv image_source
  match d.2 with
  | Except.error e => (app, d.1, Except.error ("Error processing image: " ++ e))
  | Except.ok description =>
      let emb := generate_embedding sv description
      match emb.2 with
      | Except.error e => (app, d.1 ++ emb.1, Except.error ("Error processing image: " ++ e))
      | Except.ok embedding =>
          let q := query_pinecone sv app embedding top_k_default
          match q.2.2 with
          | Except.error e =>
              (q.1, d.1 ++ emb.1 ++ q.2.1, Except.error ("Error processing image: " ++ e))
          | Except.ok results =>
              (q.1, d.1 ++ emb.1 ++ q.2.1,
               Except.ok { description := description, matchList := results })

/-- Spec-side description of the Image Loader's byte acquisition: the
full bytes that the source denotes (response body, the stream's entire
content, or the whole file), used to state that the encoder is an exact
pass-through of them. -/
def loader_source_bytes (sv : Services) (v : PyValue) : Except String (List Nat) :=
  if looks_http v then (sv.httpGet v.strVal).map HttpResponse.content
  else if v.hasRead then v.readData
  else sv.openFile v

/-- True when a text contains neither a quotation mark nor an apostrophe. -/
def no_forbidden_chars (s : String) : Bool :=
  s.data.all (fun ch => !(ch == quotationMark || ch == apostrophe))

/-- True when the list is sorted descending by score. -/
def sorted_by_score_desc : List MatchRecord → Bool
  | [] => true
  | [_] => true
  | a :: b :: rest => decide (b.score ≤ a.score) && sorted_by_score_desc (b :: rest)

/-- Concrete service record where every call succeeds with small fixed
data; scenario services below override single fields. -/
def svBase : Services where
  httpGet := fun _ => Except.ok { status := 200, content := [255, 216, 255] }
  openFile := fun _ => Except.ok [7, 7]
  chatCompletion := fun _ _ _ => Except.ok "a calm scene"
  embedPost := fun _ => Except.ok { embedding := some [(1 : Rat)/10] }
  indexQuery := fun _ _ _ => Except.ok { matchList := [] }

/-- A remote-URL source, as the Streamlit text input produces. -/
def urlSunset : PyValue :=
  { isStr := true, strVal := "http://example.com/sunset.jpg", hasRead := false,
    readData := Except.error "str has no read attribute" }

/-- A remote-URL source whose server answers 404. -/
def url404 : PyValue :=
  { isStr := true, strVal := "http://img.example/missing.jpg", hasRead := false,
    readData := Except.error "str has no read attribute" }

/-- A file-like source (Streamlit upload) holding two bytes. -/
def streamSource : PyValue :=
  { isStr := false, strVal := "", hasRead := true, readData := Except.ok [1, 2] }

/-- A file-like source whose `read()` yields no bytes. -/
def emptyStream : PyValue :=
  { isStr := false, strVal := "", hasRead := true, readData := Except.ok [] }

/-- A local-path source: a string with no http scheme. -/
def localPath : PyValue :=
  { isStr := true, strVal := "photo.jpg", hasRead := false,
    readData := Except.error "str has no read attribute" }

/-- The description of end-to-end scenario A of the spec. -/
def sunsetDescription : String := "A warm golden sunset over calm water, peaceful and nostalgic"

/-- The fixed embedding vector of scenario A. -/
def sunsetVector : List Rat := [(1 : Rat)/10, (2 : Rat)/10]

/-- The single match record of scenario A. -/
def beatlesMatch : MatchRecord :=
  { score := (93 : Rat)/100, song := "Here Comes the Sun", artist := "The Beatles",
    link := "https://example.com/here-comes-the-sun" }

/-- Services realizing scenario A: fixed description, vector and match. -/
def svScenarioA : Services :=
  { svBase with
    chatCompletion := fun _ _ _ => Except.ok sunsetDescription,
    embedPost := fun _ => Except.ok { embedding := some sunsetVector },
    indexQuery := fun _ _ _ => Except.ok { matchList := [beatlesMatch] } }

/-- The bytes of the ASCII text `Not Found`, a typical 404 body. -/
def notFoundBytes : List Nat := [78, 111, 116, 32, 70, 111, 117, 110, 100]

/-- Services whose image host answers status 404 with body `Not Found`. -/
def sv404 : Services :=
  { svBase with httpGet := fun _ => Except.ok { status := 404, content := notFoundBytes } }

/-- Services whose image host is unreachable: the GET itself raises. -/
def svUnreach : Services :=
  { svBase with httpGet := fun _ => Except.error "connection refused" }

/-- Services whose captioning call raises the same transport error the
unreachable image host raises. -/
def svCaptionFail : Services :=
  { svBase with chatCompletion := fun _ _ _ => Except.error "connection refused" }

/-- Services whose embedding POST raises a transport error. -/
def svEmbedErr : Services :=
  { svBase with embedPost := fun _ => Except.error "connection reset" }

/-- Services whose embedding endpoint answers without an `embedding` field. -/
def svEmbedNone : Services :=
  { svBase with embedPost := fun _ => Except.ok { embedding := none } }

/-- Services whose embedding endpoint answers with a vector. -/
def svEmbedOk : Services :=
  { svBase with embedPost := fun _ => Except.ok { embedding := some [(1 : Rat)/2] } }

/-- A captioning answer containing an apostrophe. -/
def apostropheText : String := String.mk ['i', 't', apostrophe, 's']

/-- Services whose captioning call returns text with an apostrophe. -/
def svApos : Services :=
  { svBase with chatCompletion := fun _ _ _ => Except.ok apostropheText }

/-- A low-scoring match record. -/
def recLow : MatchRecord := { score := (1 : Rat)/10, song := "Low", artist := "A", link := "l" }

/-- A high-scoring match record. -/
def recHigh : MatchRecord := { score := (9 : Rat)/10, song := "High", artist := "B", link := "h" }

/-- Services whose index answers two records in ascending score order. -/
def svAscending : Services :=
  { svBase with indexQuery := fun _ _ _ => Except.ok { matchList := [recLow, recHigh] } }

/-- Services whose index answers only two records, sorted descending,
although five are requested. -/
def svTwoSorted : Services :=
  { svBase with indexQuery := fun _ _ _ => Except.ok { matchList := [recHigh, recLow] } }

/-- Base64 of a byte list is empty exactly when the list is empty. -/
theorem b64encode_nil_iff (l : List Nat) : b64encode l = [] ↔ l = [] := by
  match l with
  | [] => simp [b64encode]
  | [a] => simp [b64encode]
  | [a, b] => simp [b64encode]
  | a :: b :: c :: rest => simp [b64encode]

/-- `_query_pinecone` leaves the held index handle unchanged. -/
theorem query_pinecone_fst (sv : Services) (app : AppState) (v : List Rat) (k : Nat) :
    (query_pinecone sv app v k).1 = app := by
  unfold query_pinecone
  cases sv.indexQuery app.index v k <;> rfl

/-- The loader performs image GETs only: no captioning, embedding or
index call ever appears in its trace. -/
theorem encode_trace_only_get (sv : Services) (v : PyValue) :
    ∀ c ∈ (encode_image_to_base64 sv v).1, ∃ u, c = RemoteCall.imageGet u := by
  intro c hc
  unfold encode_image_to_base64 at hc
  cases h1 : looks_http v with
  | true =>
      simp only [h1, if_true] at hc
      cases hh : sv.httpGet v.strVal <;> simp [hh] at hc <;> exact ⟨v.strVal, hc⟩
  | false =>
      simp only [h1, Bool.false_eq_true, if_false] at hc
      cases h2 : v.hasRead with
      | true =>
          simp only [h2, if_true] at hc
          cases hh : v.readData <;> simp [hh] at hc
      | false =>
          simp only [h2, Bool.false_eq_true, if_false] at hc
          cases hh : sv.openFile v <;> simp [hh] at hc

/-- Every error of `_get_image_description` carries its stage prefix. -/
theorem get_image_description_error_shape (sv : Services) (src : PyValue) (e : String)
    (h : (get_image_description sv src).2 = Except.error e) :
    ∃ c, e = "Error getting image description: " ++ c := by
  unfold get_image_description at h
  cases hb : (encode_image_to_base64 sv src).2 with
  | error f =>
      simp only [hb] at h
      exact ⟨f, (Except.error.inj h).symm⟩
  | ok b =>
      simp only [hb] at h
      cases hcc : sv.chatCompletion promptText b 300 with
      | error f =>
          simp only [hcc] at h
          exact ⟨f, (Except.error.inj h).symm⟩
      | ok d => simp [hcc] at h

/-- Every error of `_generate_embedding` carries its stage prefix. -/
theorem generate_embedding_error_shape (sv : Services) (t : String) (e : String)
    (h : (generate_embedding sv t).2 = Except.error e) :
    ∃ c, e = "Error generating embedding: " ++ c := by
  unfold generate_embedding at h
  cases hp : sv.embedPost t with
  | error f =>
      simp only [hp] at h
      exact ⟨f, (Except.error.inj h).symm⟩
  | ok resp =>
      simp only [hp] at h
      cases hr : resp.embedding with
      | none =>
          simp only [hr] at h
          exact ⟨keyErrorEmbedding, (Except.error.inj h).symm⟩
      | some v => simp [hr] at h

/-- Every error of `_query_pinecone` carries its stage prefix. -/
theorem query_pinecone_error_shape (sv : Services) (app : AppState) (v : List Rat) (k : Nat)
    (e : String) (h : (query_pinecone sv app v k).2.2 = Except.error e) :
    ∃ c, e = "Error querying Pinecone: " ++ c := by
  unfold query_pinecone at h
  cases hq : sv.indexQuery app.index v k with
  | error f =>
      simp only [hq] at h
      exact ⟨f, (Except.error.inj h).symm⟩
  | ok resp => simp [hq] at h

/-- C9: `process_image` is stateless: it returns the held index handle
unchanged, and a second invocation with the same source against the
same services, started from the state the first one left behind,
behaves identically. -/
theorem process_image_stateless (sv : Services) (app : AppState) (src : PyValue) :
    (process_image sv app src).1 = app ∧
    process_image sv (process_image sv app src).1 src = process_image sv app src := by
  have h1 : (process_image sv app src).1 = app := by
    simp only [process_image]
    cases hg : (get_image_description sv src).2 with
    | error e => simp [hg]
    | ok d =>
        cases he : (generate_embedding sv d).2 with
        | error e => simp [hg, he]
        | ok v =>
            cases hq : (query_pinecone sv app v top_k_default).2.2 with
            | error e => simp [hg, he, hq, query_pinecone_fst]
            | ok r => simp [hg, he, hq, query_pinecone_fst]
  exact ⟨h1, by rw [h1]⟩

/-- C6: for every input text, `_generate_embedding` fails with an
embedding-stage error (never an untyped crash or a value) both when the
transport POST fails and when the response lacks the `embedding` field;
when the field is present, its vector is returned. -/
theorem generate_embedding_error_typing (sv : Services) (text : String) :
    (∀ e, sv.embedPost text = Except.error e →
      (generate_embedding sv text).2 = Except.error ("Error generating embedding: " ++ e)) ∧
    (sv.embedPost text = Except.ok { embedding := none } →
      (generate_embedding sv text).2 =
        Except.error ("Error generating embedding: " ++ keyErrorEmbedding)) ∧
    (∀ v, sv.embedPost text = Except.ok { embedding := some v } →
      (generate_embedding sv text).2 = Except.ok v) := by
  refine ⟨?_, ?_, ?_⟩
  · intro e he
    simp [generate_embedding, he]
  · intro he
    simp [generate_embedding, he]
  · intro v hv
    simp [generate_embedding, hv]

/-- Witness for C6: a transport failure, a missing-field response and a
well-formed response, each run concretely. -/
theorem generate_embedding_error_typing_witness :
    (generate_embedding svEmbedErr "t").2 =
      Except.error ("Error generating embedding: " ++ "connection reset") ∧
    (generate_embedding svEmbedNone "t").2 =
      Except.error ("Error generating embedding: " ++ keyErrorEmbedding) ∧
    (generate_embedding svEmbedOk "t").2 = Except.ok [(1 : Rat)/2] :=
  ⟨(generate_embedding_error_typing svEmbedErr "t").1 "connection reset" rfl,
   (generate_embedding_error_typing svEmbedNone "t").2.1 rfl,
   (generate_embedding_error_typing svEmbedOk "t").2.2 [(1 : Rat)/2] rfl⟩

/-- C10: the loader classifies its input by shape in the source's fixed
order: an http(s)-prefixed string is fetched; otherwise a value with a
`read` attribute is consumed as a stream; otherwise the value is opened
as a local path.  Hence a file-like object is never opened as a path,
and a string without an http scheme (strings expose no `read`) is
always opened as a local path. -/
theorem encode_source_classification (sv : Services) (v : PyValue) :
    (looks_http v = true →
      encode_image_to_base64 sv v =
        ([RemoteCall.imageGet v.strVal],
         (sv.httpGet v.strVal).map (fun r => String.mk (b64encode r.content)))) ∧
    (looks_http v = false → v.hasRead = true →
      encode_image_to_base64 sv v = ([], v.readData.map (fun d => String.mk (b64encode d)))) ∧
    (looks_http v = false → v.hasRead = false →
      encode_image_to_base64 sv v =
        ([], (sv.openFile v).map (fun d => String.mk (b64encode d)))) ∧
    (v.isStr = false → v.hasRead = true →
      encode_image_to_base64 sv v = ([], v.readData.map (fun d => String.mk (b64encode d)))) ∧
    (v.isStr = true → v.hasRead = false →
      str_beginsWith v.strVal "http://" = false → str_beginsWith v.strVal "https://" = false →
      encode_image_to_base64 sv v =
        ([], (sv.openFile v).map (fun d => String.mk (b64encode d)))) := by
  have hfetch : looks_http v = true →
      encode_image_to_base64 sv v =
        ([RemoteCall.imageGet v.strVal],
         (sv.httpGet v.strVal).map (fun r => String.mk (b64encode r.content))) := by
    intro h1
    unfold encode_image_to_base64
    cases hh : sv.httpGet v.strVal <;> simp [h1, hh, Except.map]
  have hstream : looks_http v = false → v.hasRead = true →
      encode_image_to_base64 sv v = ([], v.readData.map (fun d => String.mk (b64encode d))) := by
    intro h1 h2
    unfold encode_image_to_base64
    cases hh : v.readData <;> simp [h1, h2, hh, Except.map]
  have hopen : looks_http v = false → v.hasRead = false →
      encode_image_to_base64 sv v =
        ([], (sv.openFile v).map (fun d => String.mk (b64encode d))) := by
    intro h1 h2
    unfold encode_image_to_base64
    cases hh : sv.openFile v <;> simp [h1, h2, hh, Except.map]
  refine ⟨hfetch, hstream, hopen, ?_, ?_⟩
  · intro h1 h2
    exact hstream (by simp [looks_http, h1]) h2
  · intro h1 h2 h3 h4
    exact hopen (by simp [looks_http, h3, h4]) h2

/-- Witness for C10: a remote URL, a file-like upload and a plain path
string, classified concretely. -/
theorem encode_source_classification_witness :
    encode_image_to_base64 svBase urlSunset =
      ([RemoteCall.imageGet "http://example.com/sunset.jpg"],
       (svBase.httpGet "http://example.com/sunset.jpg").map
         (fun r => String.mk (b64encode r.content))) ∧
    encode_image_to_base64 svBase streamSource =
      ([], (Except.ok [1, 2]).map (fun d => String.mk (b64encode d))) ∧
    encode_image_to_base64 svBase localPath =
      ([], (svBase.openFile localPath).map (fun d => String.mk (b64encode d))) := by
  refine ⟨(encode_source_classification svBase urlSunset).1 rfl, ?_, ?_⟩
  · exact (encode_source_classification svBase streamSource).2.2.2.1 rfl rfl
  · exact (encode_source_classification svBase localPath).2.2.2.2 rfl rfl rfl rfl

/-- C4 counterexample: the matcher does not itself sort: with the index
mocked to answer two records in ascending score order, the returned
sequence is exactly that unsorted response, refuting sortedness for
every index response. -/
theorem query_pinecone_unsorted_passthrough :
    (query_pinecone svAscending app_init [(1 : Rat)/2] 5).2.2 = Except.ok [recLow, recHigh] ∧
    sorted_by_score_desc [recLow, recHigh] = false := by
  constructor
  · rfl
  · simp only [sorted_by_score_desc, recLow, recHigh, Bool.and_eq_false_iff,
      decide_eq_false_iff_not]
    left
    norm_num

/-- C4 amended: the matcher forwards `top_k` (default 5) to the index
and returns the response's `matches` unchanged, so its output is within
`top_k` and sorted descending whenever the index's response is, and an
index holding fewer records yields exactly those with no padding. -/
theorem query_pinecone_matches_passthrough (sv : Services) (app : AppState)
    (v : List Rat) (k : Nat) (ms : List MatchRecord)
    (h : sv.indexQuery app.index v k = Except.ok { matchList := ms }) :
    (query_pinecone sv app v k).2.2 = Except.ok ms ∧
    (∀ out, (query_pinecone sv app v k).2.2 = Except.ok out →
      (ms.length ≤ k → out.length ≤ k) ∧
      (sorted_by_score_desc ms = true → sorted_by_score_desc out = true)) ∧
    top_k_default = 5 := by
  have h1 : (query_pinecone sv app v k).2.2 = Except.ok ms := by
    simp [query_pinecone, h]
  refine ⟨h1, ?_, rfl⟩
  intro out hout
  rw [h1] at hout
  have : ms = out := Except.ok.inj hout
  subst this
  exact ⟨fun hl => hl, fun hs => hs⟩

/-- Witness for C4: scenario C, the index holds only two (sorted)
records while five are requested; exactly those two come back. -/
theorem query_pinecone_passthrough_witness :
    (query_pinecone svTwoSorted app_init [(1 : Rat)/2] 5).2.2 =
      Except.ok [recHigh, recLow] ∧
    ([recHigh, recLow] : List MatchRecord).length = 2 ∧
    sorted_by_score_desc [recHigh, recLow] = true := by
  have h := query_pinecone_matches_passthrough svTwoSorted app_init [(1 : Rat)/2] 5
    [recHigh, recLow] rfl
  refine ⟨h.1, rfl, ?_⟩
  simp only [sorted_by_score_desc, recLow, recHigh, Bool.and_eq_true, decide_eq_true_eq]
  norm_num

/-- C7 counterexample: a valid byte-stream source whose `read()` yields
no bytes makes the loader return an empty payload silently, with no
error. -/
theorem loader_silent_empty_payload :
    (encode_image_to_base64 svBase emptyStream).2 = Except.ok "" ∧ "".data = [] := by
  constructor
  · rfl
  · rfl

/-- C7 amended: the loader returns exactly the full bytes its source
denotes, base64-encoded, or propagates the acquisition error; it never
truncates, and the payload is empty exactly when the source's bytes
are, so an empty source passes through silently. -/
theorem loader_full_bytes_passthrough (sv : Services) (v : PyValue) :
    (encode_image_to_base64 sv v).2 =
      (loader_source_bytes sv v).map (fun data => String.mk (b64encode data)) ∧
    (∀ data, loader_source_bytes sv v = Except.ok data →
      ((encode_image_to_base64 sv v).2 = Except.ok (String.mk (b64encode data)) ∧
       ((String.mk (b64encode data)).data = [] ↔ data = []))) := by
  have hmain : (encode_image_to_base64 sv v).2 =
      (loader_source_bytes sv v).map (fun data => String.mk (b64encode data)) := by
    unfold encode_image_to_base64 loader_source_bytes
    cases h1 : looks_http v with
    | true => cases hh : sv.httpGet v.strVal <;> simp [h1, hh, Except.map]
    | false =>
        cases h2 : v.hasRead with
        | true => cases hh : v.readData <;> simp [h1, h2, hh, Except.map]
        | false => cases hh : sv.openFile v <;> simp [h1, h2, hh, Except.map]
  refine ⟨hmain, ?_⟩
  intro data hdata
  refine ⟨by rw [hmain, hdata]; rfl, ?_⟩
  show b64encode data = [] ↔ data = []
  exact b64encode_nil_iff data

/-- Witness for C7: the two-byte upload comes back whole. -/
theorem loader_full_bytes_witness :
    loader_source_bytes svBase streamSource = Except.ok [1, 2] ∧
    (encode_image_to_base64 svBase streamSource).2 =
      Except.ok (String.mk (b64encode [1, 2])) ∧
    ((String.mk (b64encode [1, 2])).data = [] ↔ [1, 2] = ([] : List Nat)) := by
  have h := (loader_full_bytes_passthrough svBase streamSource).2 [1, 2] rfl
  exact ⟨rfl, h.1, h.2⟩

/-- C8 counterexample: a successful Descriptor invocation whose
captioning service answers text containing an apostrophe returns that
text verbatim, apostrophe included. -/
theorem description_apostrophe_passthrough :
    (get_image_description svApos streamSource).2 = Except.ok apostropheText ∧
    no_forbidden_chars apostropheText = false := by
  constructor
  · rfl
  · rfl

/-- C8 amended: the Descriptor returns the captioning service's text
unchanged; the quotation/apostrophe ban lives only in the prompt text,
so the output is free of those characters exactly when the service's
answer is. -/
theorem description_returns_service_text (sv : Services) (src : PyValue) (b d : String)
    (hb : (encode_image_to_base64 sv src).2 = Except.ok b)
    (hd : sv.chatCompletion promptText b 300 = Except.ok d) :
    (get_image_description sv src).2 = Except.ok d ∧
    (no_forbidden_chars d = true ↔
      ∃ t, (get_image_description sv src).2 = Except.ok t ∧ no_forbidden_chars t = true) := by
  have h1 : (get_image_description sv src).2 = Except.ok d := by
    simp [get_image_description, hb, hd]
  refine ⟨h1, ?_, ?_⟩
  · intro hc
    exact ⟨d, h1, hc⟩
  · rintro ⟨t, ht, hc⟩
    rw [h1] at ht
    rwa [Except.ok.inj ht]

/-- Witness for C8: a clean service answer passes through clean. -/
theorem description_returns_service_text_witness :
    (get_image_description svBase streamSource).2 = Except.ok "a calm scene" ∧
    no_forbidden_chars "a calm scene" = true := by
  have h := description_returns_service_text svBase streamSource
    (String.mk (b64encode [1, 2])) "a calm scene" rfl rfl
  exact ⟨h.1, by decide⟩

/-- C3: evaluation at the failing input.  The server answers status 404
with body `Not Found`; `_encode_image_to_base64` never inspects the
status and returns that body, base64-encoded, as the image payload
instead of failing. -/
theorem loader_returns_non_success_body :
    sv404.httpGet "http://img.example/missing.jpg" =
      Except.ok { status := 404, content := notFoundBytes } ∧
    (404 : Nat) ≠ 200 ∧
    (encode_image_to_base64 sv404 url404).2 = Except.ok "Tm90IEZvdW5k" ∧
    "Tm90IEZvdW5k" = String.mk (b64encode notFoundBytes) := by
  refine ⟨rfl, by decide, ?_, rfl⟩
  rfl

/-- Case analysis of one `process_image` run: exactly one of the three
stage calls fails and its wrapped error is returned, or all succeed. -/
theorem process_image_cases (sv : Services) (app : AppState) (src : PyValue) :
    (∃ e, (get_image_description sv src).2 = Except.error e ∧
        process_image sv app src =
          (app, (get_image_description sv src).1,
           Except.error ("Error processing image: " ++ e))) ∨
    (∃ d, (get_image_description sv src).2 = Except.ok d ∧
      ((∃ e, (generate_embedding sv d).2 = Except.error e ∧
          process_image sv app src =
            (app, (get_image_description sv src).1 ++ (generate_embedding sv d).1,
             Except.error ("Error processing image: " ++ e))) ∨
       (∃ v, (generate_embedding sv d).2 = Except.ok v ∧
         ((∃ e, (query_pinecone sv app v top_k_default).2.2 = Except.error e ∧
             process_image sv app src =
               (app, (get_image_description sv src).1 ++ (generate_embedding sv d).1 ++
                  (query_pinecone sv app v top_k_default).2.1,
                Except.error ("Error processing image: " ++ e))) ∨
          (∃ m, (query_pinecone sv app v top_k_default).2.2 = Except.ok m ∧
             process_image sv app src =
               (app, (get_image_description sv src).1 ++ (generate_embedding sv d).1 ++
                  (query_pinecone sv app v top_k_default).2.1,
                Except.ok { description := d, matchList := m })))))) := by
  cases hg : (get_image_description sv src).2 with
  | error e =>
      exact Or.inl ⟨e, rfl, by simp [process_image, hg]⟩
  | ok d =>
      refine Or.inr ⟨d, rfl, ?_⟩
      cases he : (generate_embedding sv d).2 with
      | error e =>
          exact Or.inl ⟨e, rfl, by simp [process_image, hg, he]⟩
      | ok v =>
          refine Or.inr ⟨v, rfl, ?_⟩
          cases hq : (query_pinecone sv app v top_k_default).2.2 with
          | error e =>
              exact Or.inl ⟨e, rfl, by simp [process_image, hg, he, hq, query_pinecone_fst]⟩
          | ok m =>
              exact Or.inr ⟨m, rfl, by simp [process_image, hg, he, hq, query_pinecone_fst]⟩

/-- C1 counterexample: an unreachable image host (Loader failure) and a
failing captioning call (Descriptor failure) with the same underlying
cause produce byte-for-byte identical pipeline errors, although the two
runs fail in different stages (the traces differ), so the error does
not identify the failing stage among the four. -/
theorem process_image_error_not_stage_identifying :
    (process_image svUnreach app_init urlSunset).2.2 =
      Except.error "Error processing image: Error getting image description: connection refused" ∧
    (process_image svCaptionFail app_init urlSunset).2.2 =
      Except.error "Error processing image: Error getting image description: connection refused" ∧
    (process_image svUnreach app_init urlSunset).2.1 =
      [RemoteCall.imageGet "http://example.com/sunset.jpg"] ∧
    (process_image svCaptionFail app_init urlSunset).2.1 =
      [RemoteCall.imageGet "http://example.com/sunset.jpg",
       RemoteCall.caption promptText "/9j/" 300] :=
  ⟨rfl, rfl, rfl, rfl⟩

/-- C1 amended: whenever any stage fails, `process_image` produces no
result and fails with a single wrapped error `Error processing image: `
followed by the stage wrapper carrying the cause; the wrapper names the
description, embedding or query stage — a Loader failure surfaces under
the description-stage wrapper, since loading happens inside it.  A
returned `PipelineResult` certifies that every stage succeeded. -/
theorem process_image_wrapped_error_complete (sv : Services) (app : AppState)
    (src : PyValue) :
    (∀ msg, (process_image sv app src).2.2 = Except.error msg →
      ∃ c, msg = "Error processing image: " ++ ("Error getting image description: " ++ c) ∨
           msg = "Error processing image: " ++ ("Error generating embedding: " ++ c) ∨
           msg = "Error processing image: " ++ ("Error querying Pinecone: " ++ c)) ∧
    (∀ r, (process_image sv app src).2.2 = Except.ok r →
      (get_image_description sv src).2 = Except.ok r.description ∧
      ∃ v, (generate_embedding sv r.description).2 = Except.ok v ∧
           (query_pinecone sv app v top_k_default).2.2 = Except.ok r.matchList) := by
  rcases process_image_cases sv app src with
    ⟨e, hg, hp⟩ | ⟨d, hg, ⟨e, he, hp⟩ | ⟨v, he, ⟨e, hq, hp⟩ | ⟨m, hq, hp⟩⟩⟩
  · constructor
    · intro msg hmsg
      rw [hp] at hmsg
      obtain ⟨c, hc⟩ := get_image_description_error_shape sv src e hg
      subst hc
      exact ⟨c, Or.inl (Except.error.inj hmsg).symm⟩
    · intro r hr
      rw [hp] at hr
      exact absurd hr (by simp)
  · constructor
    · intro msg hmsg
      rw [hp] at hmsg
      obtain ⟨c, hc⟩ := generate_embedding_error_shape sv d e he
      subst hc
      exact ⟨c, Or.inr (Or.inl (Except.error.inj hmsg).symm)⟩
    · intro r hr
      rw [hp] at hr
      exact absurd hr (by simp)
  · constructor
    · intro msg hmsg
      rw [hp] at hmsg
      obtain ⟨c, hc⟩ := query_pinecone_error_shape sv app v top_k_default e hq
      subst hc
      exact ⟨c, Or.inr (Or.inr (Except.error.inj hmsg).symm)⟩
    · intro r hr
      rw [hp] at hr
      exact absurd hr (by simp)
  · constructor
    · intro msg hmsg
      rw [hp] at hmsg
      exact absurd hmsg (by simp)
    · intro r hr
      rw [hp] at hr
      have hinj := Except.ok.inj hr
      subst hinj
      exact ⟨hg, v, he, hq⟩

/-- Witness for C1 (amended): a concrete embedding-stage failure whose
pipeline error carries the embedding-stage wrapper. -/
theorem process_image_wrapped_error_witness :
    (process_image svEmbedErr app_init streamSource).2.2 =
      Except.error "Error processing image: Error generating embedding: connection reset" ∧
    ∃ c, "Error processing image: Error generating embedding: connection reset" =
           "Error processing image: " ++ ("Error getting image description: " ++ c) ∨
         "Error processing image: Error generating embedding: connection reset" =
           "Error processing image: " ++ ("Error generating embedding: " ++ c) ∨
         "Error processing image: Error generating embedding: connection reset" =
           "Error processing image: " ++ ("Error querying Pinecone: " ++ c) := by
  refine ⟨rfl, ?_⟩
  exact (process_image_wrapped_error_complete svEmbedErr app_init streamSource).1 _ rfl

/-- C2: when all four stages succeed, the pipeline performs the remote
calls in the order Loader GET, captioning, embedding, index query, and
returns exactly the Descriptor text and the Matcher records unchanged. -/
theorem process_image_success_order_and_result (sv : Services) (app : AppState)
    (src : PyValue) (b d : String) (v : List Rat) (m : List MatchRecord)
    (hb : (encode_image_to_base64 sv src).2 = Except.ok b)
    (hd : sv.chatCompletion promptText b 300 = Except.ok d)
    (hv : sv.embedPost d = Except.ok { embedding := some v })
    (hm : sv.indexQuery app.index v top_k_default = Except.ok { matchList := m }) :
    (process_image sv app src).2.2 = Except.ok { description := d, matchList := m } ∧
    (process_image sv app src).2.1 =
      (encode_image_to_base64 sv src).1 ++
        [RemoteCall.caption promptText b 300, RemoteCall.embed d,
         RemoteCall.query app.index v top_k_default] := by
  have hgd : get_image_description sv src =
      ((encode_image_to_base64 sv src).1 ++ [RemoteCall.caption promptText b 300],
       Except.ok d) := by
    simp [get_image_description, hb, hd]
  have hge : generate_embedding sv d = ([RemoteCall.embed d], Except.ok v) := by
    simp [generate_embedding, hv]
  have hq : query_pinecone sv app v top_k_default =
      (app, [RemoteCall.query app.index v top_k_default], Except.ok m) := by
    simp [query_pinecone, hm]
  constructor
  · simp [process_image, hgd, hge, hq]
  · simp [process_image, hgd, hge, hq]

/-- Witness for C2: end-to-end scenario A, with a JPEG-magic image
body, the sunset description, the fixed vector and the single match. -/
theorem process_image_success_witness :
    (process_image svScenarioA app_init urlSunset).2.2 =
      Except.ok { description := sunsetDescription, matchList := [beatlesMatch] } ∧
    (process_image svScenarioA app_init urlSunset).2.1 =
      [RemoteCall.imageGet "http://example.com/sunset.jpg",
       RemoteCall.caption promptText "/9j/" 300, RemoteCall.embed sunsetDescription,
       RemoteCall.query "songs" sunsetVector top_k_default] := by
  have h := process_image_success_order_and_result svScenarioA app_init urlSunset "/9j/"
    sunsetDescription sunsetVector [beatlesMatch] rfl rfl rfl rfl
  refine ⟨h.1, ?_⟩
  rw [h.2]
  rfl

/-- C5: whenever acquiring the image bytes fails, the pipeline fails
with the wrapped fetch cause and no later remote call is made: the
trace holds image GETs only — captioning, embedding and index are never
invoked. -/
theorem load_failure_stops_pipeline (sv : Services) (app : AppState) (src : PyValue)
    (e : String) (h : (encode_image_to_base64 sv src).2 = Except.error e) :
    (process_image sv app src).2.2 =
      Except.error ("Error processing image: " ++ ("Error getting image description: " ++ e)) ∧
    ∀ c ∈ (process_image sv app src).2.1, ∃ u, c = RemoteCall.imageGet u := by
  have hgd : get_image_description sv src =
      ((encode_image_to_base64 sv src).1,
       Except.error ("Error getting image description: " ++ e)) := by
    simp [get_image_description, h]
  have htr : (process_image sv app src).2.1 = (encode_image_to_base64 sv src).1 := by
    simp [process_image, hgd]
  constructor
  · simp [process_image, hgd]
  · intro c hc
    rw [htr] at hc
    exact encode_trace_only_get sv src c hc

/-- Witness for C5: end-to-end scenario B, an unreachable URL: the GET
raises, the pipeline fails carrying that cause, and the trace holds no
captioning call. -/
theorem load_failure_stops_pipeline_witness :
    (encode_image_to_base64 svUnreach urlSunset).2 = Except.error "connection refused" ∧
    (process_image svUnreach app_init urlSunset).2.2 =
      Except.error ("Error processing image: " ++
        ("Error getting image description: " ++ "connection refused")) ∧
    (process_image svUnreach app_init urlSunset).2.1 =
      [RemoteCall.imageGet "http://example.com/sunset.jpg"] := by
  have h := load_failure_stops_pipeline svUnreach app_init urlSunset "connection refused" rfl
  exact ⟨rfl, h.1, rfl⟩
